import Mathlib

/-!
Shallow embedding of the katabump batch renewal script (kataBump_renew_batch.py)
and proofs about its core logic: the UTC renewal-window rule, the email masking
helper, the batch-account parser, and the per-account runner's outcome
classification.

Modelling conventions:
* Python strings are Lean `String`s; character-level operations (strip, split,
  lower, containment) are re-implemented over `List Char` so that every
  definition evaluates by kernel reduction.  Whitespace is the ASCII whitespace
  accepted by `Char.isWhitespace`.
* `datetime` instants are integers counting seconds from 0001-01-01 00:00 UTC;
  `datetime.strptime(_, "%Y-%m-%d")` is `strptime_ymd`, which mirrors CPython's
  format regex (exactly four year digits, one or two month/day digits) followed
  by calendar validation, returning `none` where Python raises `ValueError`.
* The browser driver is determinized as a record (`Driver`) assigning to each
  UI operation the `Except`-value it yields at its (unique) call site; a raised
  exception is `Except.error msg`.  The runner is a pure function of the driver
  and the injected clock; alongside its result it records the ordered trace of
  driver operations it actually performed.
-/

namespace KataBump

/-! ### Character/string helpers (Python str.strip / str.split / str.lower) -/

/-- Python `str.strip()` on a character list. -/
def trimChars (l : List Char) : List Char :=
  ((l.dropWhile Char.isWhitespace).reverse.dropWhile Char.isWhitespace).reverse

/-- Python `str.strip()`. -/
def trimStr (s : String) : String :=
  String.mk (trimChars s.toList)

/-- Worker for `splitChar`. -/
def splitCharAux (c : Char) : List Char → List Char → List (List Char)
  | [], acc => [acc.reverse]
  | x :: xs, acc =>
    if x = c then acc.reverse :: splitCharAux c xs []
    else splitCharAux c xs (x :: acc)

/-- Python `str.split(sep)` for a one-character separator (`"".split` yields
one empty field, like Python). -/
def splitChar (c : Char) (l : List Char) : List (List Char) :=
  splitCharAux c l []

/-- Python `str.lower()` (ASCII letters only, which is all the script needs). -/
def toLowerStr (s : String) : String :=
  String.mk (s.toList.map Char.toLower)

/-- `substrAux p l` decides whether `p` occurs as a contiguous sublist of `l`. -/
def substrAux (p : List Char) : List Char → Bool
  | [] => p.isEmpty
  | c :: xs => p.isPrefixOf (c :: xs) || substrAux p xs

/-- Python `pat in s` (substring containment). -/
def containsSub (s pat : String) : Bool :=
  substrAux pat.toList s.toList

/-- Worker for `re.sub(r"\s+", " ", _)`: collapses every maximal run of
whitespace into one space.  The boolean records whether the previous character
belonged to a whitespace run. -/
def squeezeAux : Bool → List Char → List Char
  | _, [] => []
  | lastWs, c :: rest =>
    if c.isWhitespace then
      if lastWs then squeezeAux true rest
      else ' ' :: squeezeAux true rest
    else c :: squeezeAux false rest

/-! ### Dates and the renewal decision rule (lines 112-146 of the script) -/

/-- Gregorian leap-year rule, as used by Python's `datetime.date`. -/
def isLeapYear (y : Nat) : Bool :=
  y % 4 = 0 && (y % 100 ≠ 0 || y % 400 = 0)

/-- Number of days in month `m` of year `y`. -/
def daysInMonth (y m : Nat) : Nat :=
  if m = 2 then (if isLeapYear y then 29 else 28)
  else if m = 4 ∨ m = 6 ∨ m = 9 ∨ m = 11 then 30
  else 31

/-- Days strictly before month `m` within year `y`. -/
def daysBeforeMonth (y m : Nat) : Nat :=
  (match m with
   | 1 => 0 | 2 => 31 | 3 => 59 | 4 => 90 | 5 => 120 | 6 => 151 | 7 => 181
   | 8 => 212 | 9 => 243 | 10 => 273 | 11 => 304 | _ => 334) +
  (if 3 ≤ m ∧ isLeapYear y = true then 1 else 0)

/-- Days from 0001-01-01 to the given calendar date (proleptic Gregorian, the
count underlying Python `datetime.date.toordinal` minus one). -/
def dayNumber (y m d : Nat) : Nat :=
  365 * (y - 1) + ((y - 1) / 4 - (y - 1) / 100 + (y - 1) / 400) +
    daysBeforeMonth y m + (d - 1)

/-- The instant `y-m-d hh:mm:ss` UTC as seconds from 0001-01-01 00:00 UTC. -/
def utcSeconds (y m d hh mi ss : Nat) : Int :=
  (dayNumber y m d : Int) * 86400 + hh * 3600 + mi * 60 + ss

/-- `datetime(y, m, d, tzinfo=utc) - timedelta(days=1)`: the opening instant of
the renewal window for expiry date `y-m-d` (line 134 of the script). -/
def renewOpen (y m d : Nat) : Int :=
  (dayNumber y m d : Int) * 86400 - 86400

/-- Is every character an ASCII digit? -/
def allDigits (l : List Char) : Bool :=
  l.all Char.isDigit

/-- Numeric value of a digit string. -/
def digitsVal (l : List Char) : Nat :=
  l.foldl (fun a c => 10 * a + (c.toNat - 48)) 0

/-- `datetime.strptime(s, "%Y-%m-%d").date()` as a total function: `none`
exactly where Python raises `ValueError`.  CPython's `_strptime` compiles the
format to a regex requiring exactly four digits for `%Y` and one or two digits
for `%m` and `%d` (with `0`/`00` rejected by the value checks below, matching
the regex alternatives), and `date` then validates the calendar (year 1-9999,
month 1-12, day within the month). -/
def strptime_ymd (s : String) : Option (Nat × Nat × Nat) :=
  match splitChar '-' s.toList with
  | [ys, ms, ds] =>
    if ys.length = 4 ∧ allDigits ys = true ∧
        1 ≤ ms.length ∧ ms.length ≤ 2 ∧ allDigits ms = true ∧
        1 ≤ ds.length ∧ ds.length ≤ 2 ∧ allDigits ds = true then
      let y := digitsVal ys
      let m := digitsVal ms
      let d := digitsVal ds
      if 1 ≤ y ∧ 1 ≤ m ∧ m ≤ 12 ∧ 1 ≤ d ∧ d ≤ daysInMonth y m then
        some (y, m, d)
      else none
    else none
  | _ => none

/-- `should_renew_utc0(expiry_str, now_utc)` (lines 121-146): false on a falsy
or unparsable expiry string, otherwise true iff `now_utc >= renew_open_utc`
where the window opens one day (86400 s) before 00:00 UTC of the expiry day. -/
def should_renew_utc0 (expiry_str : String) (now_utc : Int) : Bool :=
  if expiry_str = "" then false
  else
    match strptime_ymd (trimStr expiry_str) with
    | none => false
    | some (y, m, d) => decide (renewOpen y m d ≤ now_utc)

/-! ### Email masking (lines 37-53) -/

/-- The local part: everything before the first `'@'`
(`e.split("@", 1)[0]`). -/
def emailLocal (e : List Char) : List Char :=
  e.takeWhile (fun c => c ≠ '@')

/-- The domain: everything after the first `'@'` (`e.split("@", 1)[1]`). -/
def emailDomain (e : List Char) : List Char :=
  (e.dropWhile (fun c => c ≠ '@')).drop 1

/-- Lines 46-51: the masked local part.  `name or "*"` makes an empty local
part render as `"*"`. -/
def maskLocal (name : List Char) : List Char :=
  if name.length ≤ 1 then (if name = [] then ['*'] else name)
  else if name.length = 2 then name
  else name.take 1 ++ List.replicate (name.length - 2) '*' ++
    name.drop (name.length - 1)

/-- `mask_email_keep_domain` (lines 37-53). -/
def mask_email_keep_domain (email : String) : String :=
  if ((trimStr email).toList).contains '@' = false then "***"
  else
    String.mk (maskLocal (emailLocal ((trimStr email).toList)) ++
      '@' :: emailDomain ((trimStr email).toList))

/-- The masked local part as the specification words it: local parts of length
at most 2 are shown unmasked, otherwise first and last characters are revealed
and each interior character becomes one asterisk. -/
def maskLocalSpec (name : List Char) : List Char :=
  if name.length ≤ 2 then name
  else name.take 1 ++ List.replicate (name.length - 2) '*' ++
    name.drop (name.length - 1)

/-- The masking function exactly as the specification words it (used to compare
the code's behavior against the spec sentence). -/
def mask_email_spec (email : String) : String :=
  if ((trimStr email).toList).contains '@' = false then "***"
  else
    String.mk (maskLocalSpec (emailLocal ((trimStr email).toList)) ++
      '@' :: emailDomain ((trimStr email).toList))

/-! ### Batch parsing (lines 149-185) -/

/-- One configured account (the dict built on lines 174-180). -/
structure Account where
  email : String
  password : String
  server_id : String
  tg_token : String
  tg_chat : String
deriving DecidableEq, Repr

/-- What the loop body does with one raw line: silently skip it (blank or
comment), skip it with a printed warning (bad field count, line 163, or empty
mandatory field, line 171), or produce an account. -/
inductive LineRes where
  | skip
  | warnBadFieldCount
  | warnEmptyField
  | acc (a : Account)
deriving DecidableEq, Repr

/-- `[p.strip() for p in line.split(",")]` (line 160). -/
def fieldsOf (line : String) : List String :=
  (splitChar ',' line.toList).map (fun p => String.mk (trimChars p))

/-- The loop body of `build_accounts_from_env` (lines 155-180) on one line. -/
def parseLine (raw : String) : LineRes :=
  let line := trimStr raw
  if line = "" ∨ line.toList.head? = some '#' then .skip
  else
    let parts := fieldsOf line
    if parts.length ≠ 3 ∧ parts.length ≠ 5 then .warnBadFieldCount
    else
      let email := parts.getD 0 ""
      let password := parts.getD 1 ""
      let server_id := parts.getD 2 ""
      let tg_token := if parts.length = 5 then parts.getD 3 "" else ""
      let tg_chat := if parts.length = 5 then parts.getD 4 "" else ""
      if email = "" ∨ password = "" ∨ server_id = "" then .warnEmptyField
      else .acc ⟨email, password, server_id, tg_token, tg_chat⟩

/-- The accounts collected from the (already stripped) batch text, in line
order. -/
def accountsOf (batch : String) : List Account :=
  ((splitChar '\n' batch.toList).map (fun l => parseLine (String.mk l))).filterMap
    (fun r => match r with | .acc a => some a | _ => none)

/-- `build_accounts_from_env` (lines 149-185), with the value of the
`KATABUMP_BATCH` environment variable passed in (missing variable = `""`).
The two `RuntimeError`s become `Except.error`. -/
def build_accounts_from_env (env_value : String) : Except String (List Account) :=
  let batch := trimStr env_value
  if batch = "" then .error "missing environment variable KATABUMP_BATCH"
  else if accountsOf batch = [] then .error "no valid account lines in KATABUMP_BATCH"
  else .ok (accountsOf batch)

/-! ### The account runner (lines 188-321)

`renew_one_account` drives one browser session.  Every driver call is
determinized into a field of `Driver` holding the `Except`-value that the call
yields at its unique call site (a raised exception is `Except.error msg`; the
timed waits either return or raise a timeout exception, so they are
`Except String Unit`).  The runner also records the ordered trace of driver
operations it performs, so that "step X is never executed" is statable. -/

/-- Names of the driver operations, in the order the script can invoke them. -/
inductive Action where
  | startBrowser
  | navLogin | checkLoginForm1 | typeEmail | typePassword
  | checkCf | clickCaptcha | clickSubmit | waitBody1
  | checkLoginForm2 | navServer | waitBody2 | getTitle | getBody | getExpiryBefore
  | checkRenewBtn | clickRenew | waitModal | checkModalCf | modalClickCaptcha
  | submitRenewForm | checkAlert | getAlertText | refreshPage | waitBody3
  | getExpiryAfter
deriving DecidableEq, Repr

/-- Determinized driver: the outcome of each UI operation at its call site. -/
structure Driver where
  startBrowser : Except String Unit
  navLogin : Except String Unit
  loginFormVisible1 : Except String Bool
  typeEmail : Except String Unit
  typePassword : Except String Unit
  cfVisible : Except String Bool
  clickCaptcha : Except String Unit
  clickSubmit : Except String Unit
  waitBody1 : Except String Unit
  loginFormVisible2 : Except String Bool
  navServer : Except String Unit
  waitBody2 : Except String Unit
  pageTitle : Except String String
  bodyText : Except String (Option String)
  expiryVisible : Except String Bool
  expiryText : Except String (Option String)
  renewBtnVisible : Except String Bool
  clickRenew : Except String Unit
  waitModal : Except String Unit
  modalCfVisible : Except String Bool
  modalClickCaptcha : Except String Unit
  submitRenewForm : Except String Unit
  alertVisible : Except String Bool
  alertText : Except String (Option String)
  refreshPage : Except String Unit
  waitBody3 : Except String Unit
  expiryVisibleAfter : Except String Bool
  expiryTextAfter : Except String (Option String)

/-- The state the outer `except` clause closes over: the current value of
`expiry_before` plus the exception message. -/
abbrev FailState := Option String × String

/-- The `(status, expiry_before, expiry_after_or_msg)` triple the function
returns (line 191). -/
abbrev Outcome3 := String × Option String × Option String

/-- `get_expiry(sb)` (lines 98-109): visibility check, then
`text.strip() if text else None`; any exception is swallowed into `None`.
Note a whitespace-only text yields `some ""`, not `none`. -/
def get_expiry_of (vis : Except String Bool) (txt : Except String (Option String)) :
    Option String :=
  match vis with
  | .error _ => none
  | .ok false => none
  | .ok true =>
    match txt with
    | .error _ => none
    | .ok none => none
    | .ok (some t) => if t = "" then none else some (trimStr t)

/-- `get_expiry` on the server page before renewal (line 243). -/
def get_expiry_before (d : Driver) : Option String :=
  get_expiry_of d.expiryVisible d.expiryText

/-- `get_expiry` after the post-submission refresh (line 306). -/
def get_expiry_after (d : Driver) : Option String :=
  get_expiry_of d.expiryVisibleAfter d.expiryTextAfter

/-- The login block (lines 203-224): an inner `try` whose first exception
aborts the rest of the block but is swallowed ("continue, maybe already
logged in").  Only the trace matters downstream. -/
def loginRun (d : Driver) : List Action :=
  Action.navLogin ::
    match d.navLogin with
    | .error _ => []
    | .ok _ =>
      Action.checkLoginForm1 ::
        match d.loginFormVisible1 with
        | .error _ => []
        | .ok false => []
        | .ok true =>
          Action.typeEmail ::
            match d.typeEmail with
            | .error _ => []
            | .ok _ =>
              Action.typePassword ::
                match d.typePassword with
                | .error _ => []
                | .ok _ =>
                  Action.checkCf ::
                    match d.cfVisible with
                    | .error _ => []
                    | .ok false =>
                      Action.clickSubmit ::
                        match d.clickSubmit with
                        | .error _ => []
                        | .ok _ =>
                          Action.waitBody1 ::
                            match d.waitBody1 with
                            | .error _ => [] | .ok _ => []
                    | .ok true =>
                      Action.clickCaptcha ::
                        match d.clickCaptcha with
                        | .error _ => []
                        | .ok _ =>
                          Action.clickSubmit ::
                            match d.clickSubmit with
                            | .error _ => []
                            | .ok _ =>
                              Action.waitBody1 ::
                                match d.waitBody1 with
                                | .error _ => [] | .ok _ => []

/-- Lines 226-255 up to (but excluding) the eligibility decision: either an
uncaught exception (`Except.error`), an early `FAIL` return (`Sum.inl`), or
the non-empty `expiry_before` string reaching the `should_renew_utc0` check
(`Sum.inr`). -/
def preCheckRun (d : Driver) : Except FailState (Outcome3 ⊕ String) × List Action :=
  match d.loginFormVisible2 with
  | .error e => (.error (none, e), loginRun d ++ [Action.checkLoginForm2])
  | .ok true =>
    (.ok (.inl ("FAIL", none, some "Login Failed (Page Stuck)")),
      loginRun d ++ [Action.checkLoginForm2])
  | .ok false =>
    match d.navServer with
    | .error e => (.error (none, e), loginRun d ++ [Action.checkLoginForm2, Action.navServer])
    | .ok _ =>
      match d.waitBody2 with
      | .error e =>
        (.error (none, e),
          loginRun d ++ [Action.checkLoginForm2, Action.navServer, Action.waitBody2])
      | .ok _ =>
        match d.pageTitle with
        | .error e =>
          (.error (none, e),
            loginRun d ++ [Action.checkLoginForm2, Action.navServer, Action.waitBody2,
              Action.getTitle])
        | .ok title =>
          if containsSub title "404" then
            (.ok (.inl ("FAIL", none, some "Page 404")),
              loginRun d ++ [Action.checkLoginForm2, Action.navServer, Action.waitBody2,
                Action.getTitle])
          else
            match d.bodyText with
            | .error e =>
              (.error (none, e),
                loginRun d ++ [Action.checkLoginForm2, Action.navServer, Action.waitBody2,
                  Action.getTitle, Action.getBody])
            | .ok btxt =>
              if containsSub (toLowerStr (btxt.getD "")) "not found" then
                (.ok (.inl ("FAIL", none, some "Page 404")),
                  loginRun d ++ [Action.checkLoginForm2, Action.navServer, Action.waitBody2,
                    Action.getTitle, Action.getBody])
              else
                match get_expiry_before d with
                | none =>
                  (.ok (.inl ("FAIL", none, some "Expiry Element Not Found")),
                    loginRun d ++ [Action.checkLoginForm2, Action.navServer, Action.waitBody2,
                      Action.getTitle, Action.getBody, Action.getExpiryBefore])
                | some s =>
                  if s = "" then
                    (.ok (.inl ("FAIL", none, some "Expiry Element Not Found")),
                      loginRun d ++ [Action.checkLoginForm2, Action.navServer, Action.waitBody2,
                        Action.getTitle, Action.getBody, Action.getExpiryBefore])
                  else
                    (.ok (.inr s),
                      loginRun d ++ [Action.checkLoginForm2, Action.navServer, Action.waitBody2,
                        Action.getTitle, Action.getBody, Action.getExpiryBefore])

/-- The modal-captcha inner `try` (lines 270-277): exceptions swallowed. -/
def modalCaptchaRun (d : Driver) : List Action :=
  Action.checkModalCf ::
    match d.modalCfVisible with
    | .error _ => []
    | .ok false => []
    | .ok true => [Action.modalClickCaptcha]

/-- Lines 294-296: `re.sub(r"\s+", " ", raw).replace("×", "").strip()`. -/
def normAlert (raw : String) : String :=
  trimStr (String.mk ((squeezeAux false raw.toList).filter (fun c => c ≠ '×')))

/-- Line 296: `"renew your server yet" in clean_text.lower()`. -/
def notYetPattern (clean : String) : Bool :=
  containsSub (toLowerStr clean) "renew your server yet"

/-- Lines 287-315, the classification after the form was submitted: rejection
banner handling, else refresh and best-effort re-extraction (both `return "OK"`
branches on lines 310-315 yield the same triple). -/
def afterSubmitRun (d : Driver) (eb : String) : Except FailState Outcome3 × List Action :=
  match d.alertVisible with
  | .error e => (.error (some eb, e), [Action.checkAlert])
  | .ok true =>
    match d.alertText with
    | .error e => (.error (some eb, e), [Action.checkAlert, Action.getAlertText])
    | .ok t =>
      if notYetPattern (normAlert (trimStr (t.getD ""))) then
        (.ok ("OK_NOT_YET", some eb, some (trimStr (t.getD ""))),
          [Action.checkAlert, Action.getAlertText])
      else
        (.ok ("FAIL", some eb, some (trimStr (t.getD ""))),
          [Action.checkAlert, Action.getAlertText])
  | .ok false =>
    match d.refreshPage with
    | .error _ => (.ok ("OK", some eb, none), [Action.checkAlert, Action.refreshPage])
    | .ok _ =>
      match d.waitBody3 with
      | .error _ =>
        (.ok ("OK", some eb, none), [Action.checkAlert, Action.refreshPage, Action.waitBody3])
      | .ok _ =>
        (.ok ("OK", some eb, get_expiry_after d),
          [Action.checkAlert, Action.refreshPage, Action.waitBody3, Action.getExpiryAfter])

/-- The `expiry_after` value of the try block on lines 301-308: `none` when
refresh or the wait raises, otherwise the best-effort `get_expiry`. -/
def expiryAfterBestEffort (d : Driver) : Option String :=
  match d.refreshPage with
  | .error _ => none
  | .ok _ =>
    match d.waitBody3 with
    | .error _ => none
    | .ok _ => get_expiry_after d

/-- Lines 259-315 (after the window was found open): renew button, modal,
forced submission, then `afterSubmitRun`. -/
def postRun (d : Driver) (eb : String) : Except FailState Outcome3 × List Action :=
  match d.renewBtnVisible with
  | .error e => (.error (some eb, e), [Action.checkRenewBtn])
  | .ok false => (.ok ("FAIL", some eb, some "No Renew Btn"), [Action.checkRenewBtn])
  | .ok true =>
    match d.clickRenew with
    | .error e => (.error (some eb, e), [Action.checkRenewBtn, Action.clickRenew])
    | .ok _ =>
      match d.waitModal with
      | .error e =>
        (.error (some eb, e), [Action.checkRenewBtn, Action.clickRenew, Action.waitModal])
      | .ok _ =>
        match d.submitRenewForm with
        | .error e =>
          (.error (some eb, e),
            [Action.checkRenewBtn, Action.clickRenew, Action.waitModal] ++
              modalCaptchaRun d ++ [Action.submitRenewForm])
        | .ok _ =>
          ((afterSubmitRun d eb).fst,
            [Action.checkRenewBtn, Action.clickRenew, Action.waitModal] ++
              modalCaptchaRun d ++ [Action.submitRenewForm] ++ (afterSubmitRun d eb).snd)

/-- The whole `try` body of `renew_one_account` (lines 196-315) together with
the trace of driver operations performed: browser startup, login, pre-check,
the `should_renew_utc0` decision (line 253, with the injected clock `now`),
and the renewal flow. -/
def renewRun (d : Driver) (now : Int) : Except FailState Outcome3 × List Action :=
  match d.startBrowser with
  | .error e => (.error (none, e), [Action.startBrowser])
  | .ok _ =>
    match (preCheckRun d).fst with
    | .error e => (.error e, Action.startBrowser :: (preCheckRun d).snd)
    | .ok (.inl trip) => (.ok trip, Action.startBrowser :: (preCheckRun d).snd)
    | .ok (.inr eb) =>
      if should_renew_utc0 eb now then
        ((postRun d eb).fst,
          Action.startBrowser :: ((preCheckRun d).snd ++ (postRun d eb).snd))
      else
        (.ok ("SKIP", some eb, none), Action.startBrowser :: (preCheckRun d).snd)

/-- The result of the `try` body, before the outer `except` (line 317). -/
def renewBody (d : Driver) (now : Int) : Except FailState Outcome3 :=
  (renewRun d now).fst

/-- `renew_one_account` (lines 188-321): the outer `except Exception` converts
any escaped exception into `("FAIL", expiry_before, str(e))`.  The account's
credentials and server id only parametrize the driver operations, which are
abstracted into `d`. -/
def renew_one_account (d : Driver) (now : Int) : Outcome3 :=
  match renewBody d now with
  | .ok r => r
  | .error (eb, m) => ("FAIL", eb, some m)

/-- A benign driver: login succeeds, the server page shows expiry 2025-06-13,
renewal succeeds without a rejection banner. -/
def okDriver : Driver where
  startBrowser := .ok ()
  navLogin := .ok ()
  loginFormVisible1 := .ok true
  typeEmail := .ok ()
  typePassword := .ok ()
  cfVisible := .ok false
  clickCaptcha := .ok ()
  clickSubmit := .ok ()
  waitBody1 := .ok ()
  loginFormVisible2 := .ok false
  navServer := .ok ()
  waitBody2 := .ok ()
  pageTitle := .ok "Katabump Dashboard"
  bodyText := .ok (some "Server details with an Expiry field")
  expiryVisible := .ok true
  expiryText := .ok (some "2025-06-13")
  renewBtnVisible := .ok true
  clickRenew := .ok ()
  waitModal := .ok ()
  modalCfVisible := .ok false
  modalClickCaptcha := .ok ()
  submitRenewForm := .ok ()
  alertVisible := .ok false
  alertText := .ok none
  refreshPage := .ok ()
  waitBody3 := .ok ()
  expiryVisibleAfter := .ok true
  expiryTextAfter := .ok (some "2025-06-14")

/-- A driver whose navigation to the server page raises. -/
def navFailDriver : Driver :=
  { okDriver with navServer := .error "connection reset by peer" }

/-- A driver whose rejection banner says renewal is not yet allowed. -/
def rejectDriver : Driver :=
  { okDriver with
      alertVisible := .ok true
      alertText := .ok (some "You cannot renew your server yet! ×") }

/-! ### Theorems -/

/-- Inversion for an accepted batch line: the mandatory fields are non-empty
and a 3-field line leaves both notification fields empty. -/
theorem parseLine_acc_fields (raw : String) (a : Account)
    (h : parseLine raw = LineRes.acc a) :
    a.email ≠ "" ∧ a.password ≠ "" ∧ a.server_id ≠ "" ∧
    ((fieldsOf (trimStr raw)).length = 3 → a.tg_token = "" ∧ a.tg_chat = "") := by
  simp only [parseLine] at h
  split_ifs at h with h1 h2 h3 h4
  · have hmk := LineRes.acc.inj h
    subst hmk
    push_neg at h3
    exact ⟨h3.1, h3.2.1, h3.2.2, fun hlen => absurd (h4.symm.trans hlen) (by decide)⟩
  · have hmk := LineRes.acc.inj h
    subst hmk
    push_neg at h3
    exact ⟨h3.1, h3.2.1, h3.2.2, fun _ => ⟨rfl, rfl⟩⟩

/-- C1: for every expiry string that parses as a `YYYY-MM-DD` calendar date
and every instant `t`, `should_renew_utc0` returns true iff `t` is at or after
00:00 UTC of the day one day before the expiry date; in particular for expiry
2025-06-10 it is true at 2025-06-09T00:00:00Z and false at
2025-06-08T23:59:59Z. -/
theorem C1_renew_window_iff (s : String) (t : Int) (y m d : Nat)
    (h : strptime_ymd (trimStr s) = some (y, m, d)) :
    (should_renew_utc0 s t = true ↔ renewOpen y m d ≤ t) ∧
    should_renew_utc0 "2025-06-10" (utcSeconds 2025 6 9 0 0 0) = true ∧
    should_renew_utc0 "2025-06-10" (utcSeconds 2025 6 8 23 59 59) = false := by
  refine ⟨?_, by decide, by decide⟩
  have hs : ¬ s = "" := by
    intro hs
    rw [hs] at h
    exact Option.noConfusion ((show strptime_ymd (trimStr "") = none from rfl) ▸ h)
  unfold should_renew_utc0
  rw [if_neg hs, h]
  exact decide_eq_true_iff

/-- Witness for C1 at expiry 2025-06-10. -/
theorem C1_renew_window_iff_witness :
    (should_renew_utc0 "2025-06-10" (utcSeconds 2025 6 9 0 0 0) = true ↔
      renewOpen 2025 6 10 ≤ utcSeconds 2025 6 9 0 0 0) ∧
    should_renew_utc0 "2025-06-10" (utcSeconds 2025 6 9 0 0 0) = true :=
  ⟨(C1_renew_window_iff "2025-06-10" (utcSeconds 2025 6 9 0 0 0) 2025 6 10 (by decide)).1,
   (C1_renew_window_iff "2025-06-10" 0 2025 6 10 (by decide)).2.1⟩

/-- C7: an empty or unparsable expiry string makes the renewal decision
function return false (fail-safe closed; the `ValueError` is caught, so in the
model the function is total). -/
theorem C7_malformed_expiry_false (s : String) (t : Int)
    (h : s = "" ∨ strptime_ymd (trimStr s) = none) :
    should_renew_utc0 s t = false := by
  unfold should_renew_utc0
  rcases h with h | h
  · rw [if_pos h]
  · by_cases hs : s = ""
    · rw [if_pos hs]
    · rw [if_neg hs, h]

/-- Witness for C7 at `"2025-13-40"` and `""`. -/
theorem C7_malformed_expiry_false_witness :
    should_renew_utc0 "2025-13-40" 0 = false ∧ should_renew_utc0 "" 0 = false :=
  ⟨C7_malformed_expiry_false "2025-13-40" 0 (Or.inr (by decide)),
   C7_malformed_expiry_false "" 0 (Or.inl rfl)⟩

/-- The code's local-part masking agrees with the spec's wording whenever the
local part is non-empty. -/
theorem maskLocal_eq_spec (name : List Char) (h : name ≠ []) :
    maskLocal name = maskLocalSpec name := by
  unfold maskLocal maskLocalSpec
  by_cases h1 : name.length ≤ 1
  · rw [if_pos h1, if_neg h, if_pos (by omega)]
  · by_cases h2 : name.length = 2
    · rw [if_neg h1, if_pos h2, if_pos (by omega)]
    · rw [if_neg h1, if_neg h2, if_neg (by omega)]

/-- C6 counterexample: for the input `"@x.com"` the local part has length 0
(which is "at most 2"), yet the code renders it as `"*"` instead of showing it
unmasked, so the output differs from the claim's masking rule. -/
theorem C6_mask_empty_local_counterexample :
    mask_email_keep_domain "@x.com" = "*@x.com" ∧
    mask_email_spec "@x.com" = "@x.com" ∧
    mask_email_keep_domain "@x.com" ≠ mask_email_spec "@x.com" :=
  ⟨by decide, by decide, by decide⟩

/-- C6 (amended): for every input whose trimmed local part is non-empty (or
which contains no `'@'` at all), the masking function behaves exactly as the
claim states — first and last local-part characters revealed, one asterisk per
interior character, domain verbatim, local parts of length 1 or 2 unmasked,
missing `'@'` mapped to the fixed redaction constant — and the claim's three
concrete examples hold.  (An empty local part is rendered as `"*"`.) -/
theorem C6_mask_email_amended (s : String)
    (h : emailLocal ((trimStr s).toList) ≠ [] ∨
      ((trimStr s).toList).contains '@' = false) :
    mask_email_keep_domain s = mask_email_spec s ∧
    mask_email_keep_domain "abcdef@gmail.com" = "a****f@gmail.com" ∧
    mask_email_keep_domain "ab@x.com" = "ab@x.com" ∧
    mask_email_keep_domain "a@x.com" = "a@x.com" ∧
    mask_email_keep_domain "nodomain" = "***" := by
  refine ⟨?_, by decide, by decide, by decide, by decide⟩
  unfold mask_email_keep_domain mask_email_spec
  by_cases hc : ((trimStr s).toList).contains '@' = false
  · rw [if_pos hc, if_pos hc]
  · have hname : emailLocal ((trimStr s).toList) ≠ [] := by
      rcases h with h | h
      · exact h
      · exact absurd h hc
    rw [if_neg hc, if_neg hc, maskLocal_eq_spec _ hname]

/-- Witness for the amended C6 at `"abcdef@gmail.com"`. -/
theorem C6_mask_email_amended_witness :
    mask_email_keep_domain "abcdef@gmail.com" = mask_email_spec "abcdef@gmail.com" :=
  (C6_mask_email_amended "abcdef@gmail.com" (Or.inl (by decide))).1

/-- C4: the batch parser trims every line, skips blanks and `#`-comments,
splits on `','` with trimmed fields, warns-and-skips on any field count other
than 3 or 5 and on empty mandatory fields (so such lines are never accepted),
accepts only 3- or 5-field lines with non-empty mandatory fields, and on the
given concrete input produces exactly the two expected records, the second
carrying a notification destination. -/
theorem C4_batch_line_policy (raw : String) :
    (trimStr raw = "" → parseLine raw = LineRes.skip) ∧
    ((trimStr raw).toList.head? = some '#' → parseLine raw = LineRes.skip) ∧
    (¬ (trimStr raw = "" ∨ (trimStr raw).toList.head? = some '#') →
      (fieldsOf (trimStr raw)).length ≠ 3 → (fieldsOf (trimStr raw)).length ≠ 5 →
      parseLine raw = LineRes.warnBadFieldCount) ∧
    (¬ (trimStr raw = "" ∨ (trimStr raw).toList.head? = some '#') →
      ((fieldsOf (trimStr raw)).length = 3 ∨ (fieldsOf (trimStr raw)).length = 5) →
      ((fieldsOf (trimStr raw)).getD 0 "" = "" ∨ (fieldsOf (trimStr raw)).getD 1 "" = "" ∨
        (fieldsOf (trimStr raw)).getD 2 "" = "") →
      parseLine raw = LineRes.warnEmptyField) ∧
    (∀ a : Account, parseLine raw = LineRes.acc a →
      ((fieldsOf (trimStr raw)).length = 3 ∨ (fieldsOf (trimStr raw)).length = 5) ∧
      a.email ≠ "" ∧ a.password ≠ "" ∧ a.server_id ≠ "") ∧
    build_accounts_from_env "a@x.com,p1,111\nb@y.com,p2,222,TOK,CHAT\n\n# comment\n" =
      .ok [⟨"a@x.com", "p1", "111", "", ""⟩, ⟨"b@y.com", "p2", "222", "TOK", "CHAT"⟩] ∧
    (Account.mk "b@y.com" "p2" "222" "TOK" "CHAT").tg_token ≠ "" ∧
    (Account.mk "b@y.com" "p2" "222" "TOK" "CHAT").tg_chat ≠ "" := by
  refine ⟨?_, ?_, ?_, ?_, ?_, rfl, by decide, by decide⟩
  · intro h
    simp only [parseLine]
    rw [if_pos (Or.inl h)]
  · intro h
    simp only [parseLine]
    rw [if_pos (Or.inr h)]
  · intro hns h3 h5
    simp only [parseLine, if_neg hns]
    rw [if_pos ⟨h3, h5⟩]
  · intro hns hlen hempty
    simp only [parseLine, if_neg hns]
    have hcount : ¬ ((fieldsOf (trimStr raw)).length ≠ 3 ∧
        (fieldsOf (trimStr raw)).length ≠ 5) := by
      rcases hlen with h | h <;> simp [h]
    rw [if_neg hcount, if_pos hempty]
  · intro a ha
    have hf := parseLine_acc_fields raw a ha
    refine ⟨?_, hf.1, hf.2.1, hf.2.2.1⟩
    by_cases hl3 : (fieldsOf (trimStr raw)).length = 3
    · exact Or.inl hl3
    by_cases hl5 : (fieldsOf (trimStr raw)).length = 5
    · exact Or.inr hl5
    exfalso
    by_cases hns : trimStr raw = "" ∨ (trimStr raw).toList.head? = some '#'
    · have hskip : parseLine raw = LineRes.skip := by
        simp only [parseLine]
        rw [if_pos hns]
      rw [hskip] at ha
      exact LineRes.noConfusion ha
    · have hwarn : parseLine raw = LineRes.warnBadFieldCount := by
        simp only [parseLine]
        rw [if_neg hns, if_pos ⟨hl3, hl5⟩]
      rw [hwarn] at ha
      exact LineRes.noConfusion ha

/-- Witness for C4: a 4-field line is skipped with the bad-field-count
warning. -/
theorem C4_batch_line_policy_witness :
    parseLine "a,b,c,d" = LineRes.warnBadFieldCount :=
  (C4_batch_line_policy "a,b,c,d").2.2.1 (by decide) (by decide) (by decide)

/-- C5 counterexample: the 5-field line `"a@x.com,p,1,TOK,"` is accepted and
produces a record with a non-empty `tg_token` but an empty `tg_chat`, so the
claimed both-or-neither invariant fails. -/
theorem C5_notify_pair_counterexample :
    build_accounts_from_env "a@x.com,p,1,TOK," =
      .ok [⟨"a@x.com", "p", "1", "TOK", ""⟩] ∧
    ¬ ((Account.mk "a@x.com" "p" "1" "TOK" "").tg_token = "" ↔
       (Account.mk "a@x.com" "p" "1" "TOK" "").tg_chat = "") :=
  ⟨rfl, by decide⟩

/-- C5 (amended): every record produced by the batch parser has non-empty
`email`, `password` and `server_id` after trimming, and a 3-field line leaves
both notification fields empty; but a 5-field line may leave either
notification field independently empty, so `tg_token`/`tg_chat` are not
guaranteed to be both empty or both non-empty. -/
theorem C5_record_invariants (env : String) (accs : List Account) (a : Account)
    (hb : build_accounts_from_env env = .ok accs) (ha : a ∈ accs) :
    (a.email ≠ "" ∧ a.password ≠ "" ∧ a.server_id ≠ "") ∧
    (∀ raw b, parseLine raw = LineRes.acc b → (fieldsOf (trimStr raw)).length = 3 →
      b.tg_token = "" ∧ b.tg_chat = "") := by
  refine ⟨?_, fun raw b hpb hlen => (parseLine_acc_fields raw b hpb).2.2.2 hlen⟩
  simp only [build_accounts_from_env] at hb
  split_ifs at hb with h1 h2
  have hacc : accs = accountsOf (trimStr env) := by
    injection hb with hb
    exact hb.symm
  rw [hacc] at ha
  simp only [accountsOf, List.mem_filterMap] at ha
  obtain ⟨r, hr, hm⟩ := ha
  cases r with
  | skip => simp at hm
  | warnBadFieldCount => simp at hm
  | warnEmptyField => simp at hm
  | acc b =>
    simp only [Option.some.injEq] at hm
    simp only [List.mem_map] at hr
    obtain ⟨l, _, hl⟩ := hr
    have hf := parseLine_acc_fields (String.mk l) a (by rw [hl, hm])
    exact ⟨hf.1, hf.2.1, hf.2.2.1⟩

/-- Witness for the amended C5 on a concrete 3-field batch. -/
theorem C5_record_invariants_witness :
    (Account.mk "a@x.com" "p" "1" "" "").email ≠ "" ∧
    (Account.mk "a@x.com" "p" "1" "" "").password ≠ "" ∧
    (Account.mk "a@x.com" "p" "1" "" "").server_id ≠ "" :=
  (C5_record_invariants "a@x.com,p,1" [⟨"a@x.com", "p", "1", "", ""⟩]
    ⟨"a@x.com", "p", "1", "", ""⟩ rfl (by simp)).1

/-- C9: the batch parser fails (with the script's `RuntimeError`, the spec's
`ConfigError`) exactly when the trimmed input is empty or no valid account
line remains, and otherwise returns the non-empty, in-order list of parsed
records.  The model is a pure function: it performs no effects. -/
theorem C9_config_error_iff (env : String) :
    ((∃ e, build_accounts_from_env env = .error e) ↔
      (trimStr env = "" ∨ accountsOf (trimStr env) = [])) ∧
    (∀ accs, build_accounts_from_env env = .ok accs →
      accs ≠ [] ∧ accs = accountsOf (trimStr env)) := by
  simp only [build_accounts_from_env]
  split_ifs with h1 h2
  · refine ⟨⟨fun _ => Or.inl h1, fun _ => ⟨_, rfl⟩⟩, ?_⟩
    intro accs habs
    exact absurd habs (by simp)
  · refine ⟨⟨fun _ => Or.inr h2, fun _ => ⟨_, rfl⟩⟩, ?_⟩
    intro accs habs
    exact absurd habs (by simp)
  · constructor
    · constructor
      · rintro ⟨e, he⟩
        simp at he
      · rintro (h | h)
        · exact absurd h h1
        · exact absurd h h2
    · intro accs hok
      injection hok with hok
      exact ⟨by rw [hok] at h2; exact h2, hok.symm⟩

/-- Witness for C9 on a concrete one-account batch. -/
theorem C9_config_error_iff_witness :
    ([⟨"a@x.com", "p", "1", "", ""⟩] : List Account) ≠ [] ∧
    ([⟨"a@x.com", "p", "1", "", ""⟩] : List Account) =
      accountsOf (trimStr "a@x.com,p,1") :=
  (C9_config_error_iff "a@x.com,p,1").2 [⟨"a@x.com", "p", "1", "", ""⟩] rfl

/-- The login block never clicks the renew control nor submits the renewal
form. -/
theorem loginRun_no_renew_ops (d : Driver) :
    Action.clickRenew ∉ loginRun d ∧ Action.submitRenewForm ∉ loginRun d := by
  constructor <;>
  · unfold loginRun
    (repeat' split) <;> decide

/-- The pre-check phase never clicks the renew control nor submits the renewal
form. -/
theorem preCheckRun_no_renew_ops (d : Driver) :
    Action.clickRenew ∉ (preCheckRun d).snd ∧
    Action.submitRenewForm ∉ (preCheckRun d).snd := by
  have hl := loginRun_no_renew_ops d
  constructor <;>
  · unfold preCheckRun
    (repeat' split) <;>
      simp [List.mem_append, List.mem_cons, List.mem_singleton, hl.1, hl.2]

/-- The early returns of the pre-check phase are the three literal `FAIL`
triples. -/
theorem preCheckRun_inl (d : Driver) (trip : Outcome3)
    (h : (preCheckRun d).fst = .ok (.inl trip)) :
    trip = ("FAIL", none, some "Login Failed (Page Stuck)") ∨
    trip = ("FAIL", none, some "Page 404") ∨
    trip = ("FAIL", none, some "Expiry Element Not Found") := by
  unfold preCheckRun at h
  (repeat' split at h) <;> simp_all

/-- The expiry string that reaches the eligibility check is non-empty (the
`if not expiry_before` guard). -/
theorem preCheckRun_inr_ne (d : Driver) (s : String)
    (h : (preCheckRun d).fst = .ok (.inr s)) : s ≠ "" := by
  unfold preCheckRun at h
  (repeat' split at h) <;> simp_all

/-- The post-submission classifier only yields `FAIL` (with a message),
`OK` or `OK_NOT_YET`. -/
theorem afterSubmitRun_ok_cases (d : Driver) (eb : String) (trip : Outcome3)
    (h : (afterSubmitRun d eb).fst = .ok trip) :
    (trip.1 = "FAIL" ∧ ∃ m, trip.2.2 = some m) ∨ trip.1 = "OK" ∨
      trip.1 = "OK_NOT_YET" := by
  unfold afterSubmitRun at h
  (repeat' split at h) <;> first
    | (simp_all; done)
    | (replace h := Except.ok.inj h; rw [← h]; simp)

/-- The renewal phase only yields `FAIL` (with a message), `OK` or
`OK_NOT_YET`. -/
theorem postRun_ok_cases (d : Driver) (eb : String) (trip : Outcome3)
    (h : (postRun d eb).fst = .ok trip) :
    (trip.1 = "FAIL" ∧ ∃ m, trip.2.2 = some m) ∨ trip.1 = "OK" ∨
      trip.1 = "OK_NOT_YET" := by
  unfold postRun at h
  (repeat' split at h) <;> first
    | (simp_all; done)
    | (replace h := Except.ok.inj h; rw [← h]; simp)
    | exact afterSubmitRun_ok_cases d eb trip h

/-- Every normal return of the `try` body is a `SKIP`, `OK`, `OK_NOT_YET` or
`FAIL`-with-message triple. -/
theorem renewBody_ok_cases (d : Driver) (t : Int) (trip : Outcome3)
    (h : renewBody d t = .ok trip) :
    trip.1 = "SKIP" ∨ trip.1 = "OK" ∨ trip.1 = "OK_NOT_YET" ∨
      (trip.1 = "FAIL" ∧ ∃ m, trip.2.2 = some m) := by
  unfold renewBody renewRun at h
  (repeat' split at h)
  · simp_all
  · simp_all
  · rename_i trip' heq
    simp only [Prod.fst] at h
    have hob := Except.ok.inj h
    rcases preCheckRun_inl d trip' heq with h1 | h1 | h1 <;>
      (rw [h1] at hob; rw [← hob]; simp)
  · rename_i eb heq hs
    simp only [Prod.fst] at h
    exact match postRun_ok_cases d eb trip h with
      | Or.inl hf => Or.inr (Or.inr (Or.inr hf))
      | Or.inr (Or.inl ho) => Or.inr (Or.inl ho)
      | Or.inr (Or.inr hn) => Or.inr (Or.inr (Or.inl hn))
  · replace h := Except.ok.inj h
    rw [← h]
    simp

/-- C2: one invocation of `renew_one_account` returns exactly one outcome
triple whose status is `SKIP`, `OK`, `OK_NOT_YET` or `FAIL` (the model is a
total function, so an outcome is always produced), a `FAIL` always carries a
reason string, and any exception escaping the `try` body is converted into a
`FAIL` outcome carrying that exception's message rather than propagating. -/
theorem C2_runner_single_outcome (d : Driver) (t : Int) :
    ((renew_one_account d t).1 = "SKIP" ∨ (renew_one_account d t).1 = "OK" ∨
      (renew_one_account d t).1 = "OK_NOT_YET" ∨
      ((renew_one_account d t).1 = "FAIL" ∧
        ∃ m, (renew_one_account d t).2.2 = some m)) ∧
    (∀ eb m, renewBody d t = Except.error (eb, m) →
      renew_one_account d t = ("FAIL", eb, some m)) := by
  constructor
  · rcases hb : renewBody d t with ⟨eb, m⟩ | trip
    · have hfail : renew_one_account d t = ("FAIL", eb, some m) := by
        simp [renew_one_account, hb]
      rw [hfail]
      exact Or.inr (Or.inr (Or.inr ⟨rfl, m, rfl⟩))
    · have hval : renew_one_account d t = trip := by
        simp [renew_one_account, hb]
      rw [hval]
      rcases renewBody_ok_cases d t trip hb with h | h | h | h
      · exact Or.inl h
      · exact Or.inr (Or.inl h)
      · exact Or.inr (Or.inr (Or.inl h))
      · exact Or.inr (Or.inr (Or.inr h))
  · intro eb m hb
    simp [renew_one_account, hb]

/-- Witness for C2: a driver whose server-page navigation raises yields a
`FAIL` outcome carrying the exception message. -/
theorem C2_runner_single_outcome_witness :
    renew_one_account navFailDriver 0 = ("FAIL", none, some "connection reset by peer") :=
  (C2_runner_single_outcome navFailDriver 0).2 none "connection reset by peer" rfl

/-- C3: after the renewal form is submitted, a visible banner whose
normalized text (whitespace collapsed, `'×'` removed, lowercased) contains
"renew your server yet" yields `OK_NOT_YET` carrying the banner text; a
visible banner with any other text yields a `FAIL` with that text as reason;
no banner yields `OK` with the before-expiry and the best-effort re-extracted
after-expiry — extraction failure leaves the after value empty rather than
producing a `FAIL`, and whether the value changed is irrelevant. -/
theorem C3_post_submit_classification (d : Driver) (eb : String) :
    (∀ txt, d.alertVisible = Except.ok true → d.alertText = Except.ok txt →
      (notYetPattern (normAlert (trimStr (txt.getD ""))) = true →
        (afterSubmitRun d eb).fst =
          .ok ("OK_NOT_YET", some eb, some (trimStr (txt.getD "")))) ∧
      (notYetPattern (normAlert (trimStr (txt.getD ""))) = false →
        (afterSubmitRun d eb).fst =
          .ok ("FAIL", some eb, some (trimStr (txt.getD ""))))) ∧
    (d.alertVisible = Except.ok false →
      (afterSubmitRun d eb).fst = .ok ("OK", some eb, expiryAfterBestEffort d)) ∧
    (d.alertVisible = Except.ok false → expiryAfterBestEffort d = none →
      (afterSubmitRun d eb).fst = .ok ("OK", some eb, none)) := by
  have hmain : d.alertVisible = Except.ok false →
      (afterSubmitRun d eb).fst = .ok ("OK", some eb, expiryAfterBestEffort d) := by
    intro hv
    unfold afterSubmitRun expiryAfterBestEffort
    rw [hv]
    rcases hr : d.refreshPage with e | u
    · simp
    · rcases hw : d.waitBody3 with e | u <;> simp
  refine ⟨?_, hmain, fun hv he => by rw [hmain hv, he]⟩
  intro txt hv ht
  constructor <;> intro hp <;>
    · unfold afterSubmitRun
      rw [hv, ht]
      simp [hp]

/-- Witness for C3: a banner containing "renew your server yet" is classified
as `OK_NOT_YET` (the spec's `RejectedByTarget`), carrying the banner text. -/
theorem C3_post_submit_classification_witness :
    (afterSubmitRun rejectDriver "2025-06-10").fst =
      .ok ("OK_NOT_YET", some "2025-06-10", some "You cannot renew your server yet! ×") :=
  ((C3_post_submit_classification rejectDriver "2025-06-10").1
    (some "You cannot renew your server yet! ×") rfl rfl).1 (by decide)

/-- C8: whenever the runner reaches the eligibility check with expiry `eb` and
the window is not open at `t`, it returns `SKIP` carrying `eb` and the trace
contains neither the renew-control click nor the form submission. -/
theorem C8_skip_short_circuits (d : Driver) (t : Int) (eb : String)
    (h0 : d.startBrowser = Except.ok ())
    (h1 : (preCheckRun d).fst = Except.ok (Sum.inr eb))
    (h2 : should_renew_utc0 eb t = false) :
    renew_one_account d t = ("SKIP", some eb, none) ∧
    Action.clickRenew ∉ (renewRun d t).snd ∧
    Action.submitRenewForm ∉ (renewRun d t).snd := by
  have hrun : renewRun d t =
      (.ok ("SKIP", some eb, none), Action.startBrowser :: (preCheckRun d).snd) := by
    unfold renewRun
    rw [h0]
    simp [h1, h2]
  refine ⟨by simp [renew_one_account, renewBody, hrun], ?_, ?_⟩
  · rw [hrun]
    intro hmem
    rcases List.mem_cons.mp hmem with hc | hc
    · exact Action.noConfusion hc
    · exact (preCheckRun_no_renew_ops d).1 hc
  · rw [hrun]
    intro hmem
    rcases List.mem_cons.mp hmem with hc | hc
    · exact Action.noConfusion hc
    · exact (preCheckRun_no_renew_ops d).2 hc

/-- Witness for C8: with expiry 2025-06-13 on 2025-06-10 the window is closed,
so the run skips and never clicks nor submits. -/
theorem C8_skip_short_circuits_witness :
    renew_one_account okDriver (utcSeconds 2025 6 10 0 0 0) =
      ("SKIP", some "2025-06-13", none) ∧
    Action.clickRenew ∉ (renewRun okDriver (utcSeconds 2025 6 10 0 0 0)).snd ∧
    Action.submitRenewForm ∉ (renewRun okDriver (utcSeconds 2025 6 10 0 0 0)).snd :=
  C8_skip_short_circuits okDriver (utcSeconds 2025 6 10 0 0 0) "2025-06-13"
    rfl rfl (by decide)

/-- Inversion for a `SKIP` result of the `try` body: the carried expiry is
the non-empty string that reached the eligibility check. -/
theorem renewBody_skip_inv (d : Driver) (t : Int) (eb af : Option String)
    (h : renewBody d t = .ok ("SKIP", eb, af)) :
    ∃ s, eb = some s ∧ s ≠ "" := by
  unfold renewBody renewRun at h
  (repeat' split at h)
  · simp_all
  · simp_all
  · rename_i trip' heq
    replace h := Except.ok.inj h
    rcases preCheckRun_inl d trip' heq with h1 | h1 | h1 <;>
      (rw [h1] at h;
       exact absurd (show ("FAIL" : String) = "SKIP" from congrArg Prod.fst h) (by decide))
  · rename_i eb' heq hs
    have hpost : (postRun d eb').fst = Except.ok ("SKIP", eb, af) := h
    rcases postRun_ok_cases d eb' ("SKIP", eb, af) hpost with hf | ho | hn
    · exact absurd (show ("SKIP" : String) = "FAIL" from hf.1) (by decide)
    · exact absurd (show ("SKIP" : String) = "OK" from ho) (by decide)
    · exact absurd (show ("SKIP" : String) = "OK_NOT_YET" from hn) (by decide)
  · rename_i eb' heq hs
    replace h := Except.ok.inj h
    have heb : some eb' = eb := congrArg (fun r => r.2.1) h
    exact ⟨eb', heb.symm, preCheckRun_inr_ne d eb' heq⟩

/-- C10: whenever `renew_one_account` returns a `SKIP` outcome, the carried
expiry-before component is `some` non-empty string (so the orchestrator's
skip-message construction, whose fallback branch references an undefined
variable, is never reached with a missing expiry). -/
theorem C10_skip_carries_nonempty_expiry (d : Driver) (t : Int)
    (eb af : Option String)
    (h : renew_one_account d t = ("SKIP", eb, af)) :
    ∃ s, eb = some s ∧ s ≠ "" := by
  unfold renew_one_account at h
  rcases hb : renewBody d t with ⟨eb', m⟩ | trip
  · rw [hb] at h
    exact absurd (show ("FAIL" : String) = "SKIP" from congrArg Prod.fst h) (by decide)
  · rw [hb] at h
    replace h : trip = ("SKIP", eb, af) := h
    rw [h] at hb
    exact renewBody_skip_inv d t eb af hb

/-- Witness for C10 at the benign driver with a closed window. -/
theorem C10_skip_carries_nonempty_expiry_witness :
    ∃ s, (some "2025-06-13" : Option String) = some s ∧ s ≠ "" :=
  C10_skip_carries_nonempty_expiry okDriver (utcSeconds 2025 6 10 0 0 0)
    (some "2025-06-13") none rfl

end KataBump
